import Mathlib

/-!
# Time-Capsule: a shallow embedding of the capture-to-entry pipeline

This file embeds the entry-forming core of the Time-Capsule repository:

* utils/tokenization_utils.py  — the segmentation engine (TokenizationUtils)
* src/text/text_capture.py     — the Text capture source (TextCapture)
* src/screen_recording/screen_recorder.py — the Screen batch/OCR loop
* src/audio_recording/audio_recorder.py   — the voice-activity filter
* main.py                      — the shutdown signal handler

Python strings are Lean Strings; machine integers are Nat/Int; audio
amplitudes are rationals (the Python floats of the counterexamples below
are exactly representable, so the comparison outcomes agree).  External
collaborators (the NLTK word tokenizer, pytesseract OCR, the OpenCV image
transforms) are parameters of the functions that call them, exactly where
the Python calls out to them.  The nondeterministic uuid4 identifier is
modelled as a fresh counter carried in the engine state; nothing below
depends on more than its freshness.  File writes are modelled as an
append-only log of write events (filename, entry, token list).
-/

namespace TimeCapsule

/-! ## Python string primitives -/

/-- The characters Python's str.split() and str.strip() treat as whitespace
(the ASCII ones; captured text in this development stays in that range). -/
def pyWs (c : Char) : Bool :=
  c = ' ' || c = '\t' || c = '\n' || c = '\r' || c = '\x0b' || c = '\x0c'

/-- Helper for text.split(): cut a character list at whitespace runs,
dropping empty pieces, accumulating the current word reversed. -/
def wordsAux : List Char → List Char → List (List Char)
  | [], acc => if acc.isEmpty then [] else [acc.reverse]
  | c :: cs, acc =>
      if pyWs c then
        if acc.isEmpty then wordsAux cs [] else acc.reverse :: wordsAux cs []
      else
        wordsAux cs (c :: acc)

/-- Python text.split(): the maximal whitespace-free words of the string. -/
def pySplitWs (s : String) : List String :=
  (wordsAux s.data []).map String.mk

/-- Python " ".join(ws). -/
def joinSpace : List String → String
  | [] => ""
  | [w] => w
  | w :: x :: ws => w ++ " " ++ joinSpace (x :: ws)

/-- TokenizationUtils.preprocess_text: " ".join(text.split()). -/
def preprocess_text (text : String) : String :=
  joinSpace (pySplitWs text)

/-- Truthiness of Python s.strip(): true iff s has a non-whitespace
character. -/
def hasNonWs (s : String) : Bool :=
  s.data.any (fun c => !(pyWs c))

/-- Python s[:-1]: drop the last character; total, the empty string maps to
itself. -/
def pyDropLast (s : String) : String :=
  String.mk s.data.dropLast

/-! ## Entries and the store (EntryStore) -/

/-- Metadata maps are association lists of strings (the JSON objects the
Python code builds). -/
abbrev Metadata := List (String × String)

/-- The in-memory entry TokenizationUtils.current_entry holds (the dict
built at utils/tokenization_utils.py lines 50-56). uuid4 is modelled as a
fresh natural number. -/
structure Entry where
  id : Nat
  timestamp : String
  source : String
  text : String
  metadata : Metadata
deriving DecidableEq

/-- One durable write performed by TokenizationUtils.store_entry: the file
name, the entry serialized into it, and the token list added to it. -/
structure StoredFile where
  filename : String
  entry : Entry
  tokens : List String
deriving DecidableEq

/-- The file name store_entry chooses (line 71):
f"entry_\x7bentry['timestamp']\x7d.json". -/
def entryFilename (e : Entry) : String :=
  "entry_" ++ e.timestamp ++ ".json"

/-- TokenizationUtils.store_entry (lines 68-77): tokenize the entry's text,
write the record under entryFilename.  The write log records each write
event in order; tokenize is the external nltk.word_tokenize collaborator. -/
def store_entry (tokenize : String → List String) (log : List StoredFile)
    (e : Entry) : List StoredFile :=
  log ++ [⟨entryFilename e, e, tokenize e.text⟩]

/-- The mutable state of one TokenizationUtils instance: the open entry (or
none), the fresh-id counter standing for uuid4, and the write log. -/
structure TokState where
  current_entry : Option Entry
  next_id : Nat
  stored : List StoredFile
deriving DecidableEq

/-- TokenizationUtils.is_token_limit_reached (lines 33-36):
len(word_tokenize(text)) >= token_limit. -/
def is_token_limit_reached (tokenize : String → List String) (limit : Nat)
    (text : String) : Bool :=
  limit ≤ (tokenize text).length

/-- Lines 47-58 of tokenize_and_store_text: if no entry is open or the
record carries a context switch, store any open entry and open a fresh one
seeded with the cleaned text; otherwise append " " + clean_text. -/
def mergeEntry (tokenize : String → List String) (st : TokState)
    (clean_text timestamp source : String) (metadata : Metadata)
    (context_switch : Bool) : TokState :=
  match st.current_entry, context_switch with
  | none, _ =>
      { st with
        current_entry := some ⟨st.next_id, timestamp, source, clean_text, metadata⟩,
        next_id := st.next_id + 1 }
  | some e, true =>
      { current_entry := some ⟨st.next_id, timestamp, source, clean_text, metadata⟩,
        next_id := st.next_id + 1,
        stored := store_entry tokenize st.stored e }
  | some e, false =>
      { st with current_entry := some { e with text := e.text ++ " " ++ clean_text } }

/-- Lines 63-66 of tokenize_and_store_text: after the merge, if the open
entry's token count reaches the limit, store it and clear the reference. -/
def limitFlush (tokenize : String → List String) (limit : Nat)
    (st : TokState) : TokState :=
  match st.current_entry with
  | none => st
  | some e =>
      if is_token_limit_reached tokenize limit e.text then
        { st with current_entry := none, stored := store_entry tokenize st.stored e }
      else st

/-- TokenizationUtils.tokenize_and_store_text (lines 43-66): preprocess,
merge into the open entry, then apply the token-limit check. -/
def tokenize_and_store_text (tokenize : String → List String) (limit : Nat)
    (st : TokState) (text timestamp source : String) (metadata : Metadata)
    (context_switch : Bool) : TokState :=
  limitFlush tokenize limit
    (mergeEntry tokenize st (preprocess_text text) timestamp source metadata context_switch)

/-- TokenizationUtils.process_text_capture (lines 79-81). -/
def process_text_capture (tokenize : String → List String) (limit : Nat)
    (st : TokState) (text timestamp : String) (metadata : Metadata)
    (context_switch : Bool) : TokState :=
  tokenize_and_store_text tokenize limit st text timestamp "Text Capture" metadata context_switch

/-- TokenizationUtils.process_ocr_text (lines 83-85): note it never passes
context_switch, so OCR records always take the default False. -/
def process_ocr_text (tokenize : String → List String) (limit : Nat)
    (st : TokState) (text timestamp : String) (metadata : Metadata) : TokState :=
  tokenize_and_store_text tokenize limit st text timestamp "OCR" metadata false

/-- A concrete tokenizer used to instantiate the external nltk collaborator
in witnesses: whitespace word splitting. -/
def wsTokenize (s : String) : List String := pySplitWs s

/-! ## The Text capture source (src/text/text_capture.py)

pynput delivers either a KeyCode (a character key, carrying .char) or a
member of the Key enum (enter, space, modifiers, ...), which has no .char
attribute: reading key.char on one raises AttributeError, which is exactly
the branch structure of on_key_press.  The clock readings the handler
takes (datetime.now minute string, datetime.now().isoformat(), time.time()
seconds) are inputs, as is the metadata snapshot the system-info
collaborator would supply at emission time. -/

/-- The keys on_key_press distinguishes.  char c is a pynput KeyCode with
.char = c; the rest are members of the Key enum. -/
inductive PKey where
  | char (c : Char)
  | enter
  | space
  | backspace
  | tab
  | alt_l
  | cmd
  | ctrl_l
  | ctrl_r
  | other
deriving DecidableEq

/-- Reading key.char: some c on a KeyCode, none (AttributeError) on every
Key-enum member. -/
def keyChar : PKey → Option Char
  | PKey.char c => some c
  | _ => none

/-- The mutable state of one TextCapture instance that on_key_press and
save_current_phrase touch: the phrase buffer, the minute marker, the
last-activity clock, and the owned TokenizationUtils state. -/
structure TCState where
  current_phrase : String
  current_minute : Option String
  last_activity_time : ℚ
  tok : TokState
deriving DecidableEq

/-- TextCapture.inactivity_threshold (line 41): 5 seconds. -/
def inactivity_threshold : ℚ := 5

/-- TextCapture.save_current_phrase (lines 101-127): only when the buffer
strips to something non-empty, hand it to
tokenization_utils.process_text_capture and clear the buffer (success
path of the try); otherwise do nothing at all. -/
def save_current_phrase (tokenize : String → List String) (limit : Nat)
    (st : TCState) (now_iso : String) (metadata : Metadata)
    (context_switch : Bool) : TCState :=
  if hasNonWs st.current_phrase then
    { st with
      tok := process_text_capture tokenize limit st.tok st.current_phrase now_iso
               metadata context_switch,
      current_phrase := "" }
  else st

/-- Lines 61-68 of on_key_press: on the first key press record the minute;
on a later press in a different wall-clock minute, save_current_phrase()
first (context_switch takes its default False) and then record the new
minute. -/
def minuteRollover (tokenize : String → List String) (limit : Nat)
    (st : TCState) (now_minute now_iso : String) (metadata : Metadata) : TCState :=
  match st.current_minute with
  | none => { st with current_minute := some now_minute }
  | some m =>
      if m = now_minute then st
      else
        { save_current_phrase tokenize limit st now_iso metadata false with
          current_minute := some now_minute }

/-- Lines 70-87 of on_key_press: the try block reads key.char; on a
character key it appends the character and refreshes the activity clock
(the modifier and enter tests that follow compare a KeyCode against
Key-enum members, so they cannot fire); on AttributeError the except block
handles space, backspace and tab and ignores every other key. -/
def keyDispatch (tokenize : String → List String) (limit : Nat)
    (st : TCState) (key : PKey) (now_iso : String) (now : ℚ)
    (metadata : Metadata) : TCState :=
  match keyChar key with
  | some c =>
      let st1 := { st with
        current_phrase := st.current_phrase.push c,
        last_activity_time := now }
      if key = PKey.alt_l ∨ key = PKey.cmd ∨ key = PKey.ctrl_l ∨ key = PKey.ctrl_r then
        save_current_phrase tokenize limit st1 now_iso metadata true
      else if key = PKey.enter then
        save_current_phrase tokenize limit
          { st1 with current_phrase := st1.current_phrase ++ "\n" }
          now_iso metadata true
      else st1
  | none =>
      match key with
      | PKey.space => { st with current_phrase := st.current_phrase ++ " " }
      | PKey.backspace => { st with current_phrase := pyDropLast st.current_phrase }
      | PKey.tab => { st with current_phrase := st.current_phrase ++ "\t" }
      | _ => st

/-- Lines 89-91 of on_key_press: if the time since the last activity has
reached the inactivity threshold, save with context_switch=True and
refresh the activity clock. -/
def inactivityCheck (tokenize : String → List String) (limit : Nat)
    (st : TCState) (now_iso : String) (now : ℚ) (metadata : Metadata) : TCState :=
  if inactivity_threshold ≤ now - st.last_activity_time then
    { save_current_phrase tokenize limit st now_iso metadata true with
      last_activity_time := now }
  else st

/-- TextCapture.on_key_press (lines 59-91): minute rollover, then the key
itself, then the inactivity check. -/
def on_key_press (tokenize : String → List String) (limit : Nat)
    (st : TCState) (key : PKey) (now_minute now_iso : String) (now : ℚ)
    (metadata : Metadata) : TCState :=
  inactivityCheck tokenize limit
    (keyDispatch tokenize limit
      (minuteRollover tokenize limit st now_minute now_iso metadata)
      key now_iso now metadata)
    now_iso now metadata

/-! ## Shutdown (main.py and TextCapture.stop_capture)

main.handle_signal stops each running service.  With only the text service
registered (so no missing stop_recording attribute gets in the way), the
handler runs text_capture.stop_capture(), which stops the two pynput
listeners and nothing else; neither function touches the phrase buffer or
the TokenizationUtils state. -/

/-- The whole TextCapture component: the two listener flags plus the
capture state above. -/
structure TextCaptureComp where
  key_listener_running : Bool
  mouse_listener_running : Bool
  state : TCState
deriving DecidableEq

/-- TextCapture.stop_capture (lines 129-135): stop both listeners. -/
def stop_capture (tc : TextCaptureComp) : TextCaptureComp :=
  { tc with key_listener_running := false, mouse_listener_running := false }

/-- The application state main.handle_signal acts on (text service
registered). -/
structure MainApp where
  text_capture : TextCaptureComp
deriving DecidableEq

/-- main.handle_signal (lines 58-67) on delivery of SIGINT/SIGTERM: stop
the registered services. -/
def handle_signal (app : MainApp) : MainApp :=
  { app with text_capture := stop_capture app.text_capture }

/-! ## The Screen batch loop (src/screen_recording/screen_recorder.py)

process_screenshots drains the queue into batches and, inside one
try-block per batch, first preprocesses every screenshot of the batch and
then runs OCR and emission per screenshot.  An exception anywhere inside
the try aborts the rest of the batch; the except clause logs it and the
while loop moves on to the next batch.  Images are an abstract type;
preprocessing and recognition are the external OpenCV/pytesseract
collaborators, returning none where the Python call would raise. -/

/-- One queued screenshot: the grabbed image, the capture timestamp string
and the monitor index. -/
structure ScreenEvent (Img : Type) where
  img : Img
  timestamp : String
  monitor : Nat

/-- ScreenRecorder.clean_text (lines 144-147): keep alphanumeric and
whitespace characters, lowercase the rest of the string (ASCII range). -/
def clean_text (s : String) : String :=
  String.mk ((s.data.filter (fun c => c.isAlphanum || c.isWhitespace)).map Char.toLower)

/-- Lines 105-109: the first for-loop preprocesses every screenshot of the
batch; a failure (none) raises out of the whole batch. -/
def preprocessPhase {Img : Type} (preprocess_image : Img → Option Img) :
    List (ScreenEvent Img) → Option (List (ScreenEvent Img))
  | [] => some []
  | ev :: rest =>
      match preprocess_image ev.img with
      | none => none
      | some img1 =>
          match preprocessPhase preprocess_image rest with
          | none => none
          | some l => some ({ ev with img := img1 } :: l)

/-- Lines 111-119: the second for-loop recognizes each preprocessed image,
joins the non-blank recognized words with single spaces, cleans the
result, and emits it through process_ocr_text with timestamp and monitor
metadata.  A recognition failure raises: the events already emitted stay
emitted, the rest of the batch is abandoned. -/
def ocrPhase {Img : Type} (recognize : Img → Option (List String))
    (tokenize : String → List String) (limit : Nat) (tok : TokState) :
    List (ScreenEvent Img) → TokState
  | [] => tok
  | ev :: rest =>
      match recognize ev.img with
      | none => tok
      | some words =>
          let normalized_text := joinSpace (words.filter hasNonWs)
          let cleaned_text := clean_text normalized_text
          let metadata : Metadata :=
            [("timestamp", ev.timestamp), ("monitor", toString ev.monitor)]
          ocrPhase recognize tokenize limit
            (process_ocr_text tokenize limit tok cleaned_text ev.timestamp metadata)
            rest

/-- One iteration of the while-loop of process_screenshots (lines 97-125)
on a full batch: the try block runs both phases; any failure is caught by
the except clause (logged) and the state reached so far is kept. -/
def processBatch {Img : Type} (preprocess_image : Img → Option Img)
    (recognize : Img → Option (List String)) (tokenize : String → List String)
    (limit : Nat) (tok : TokState) (batch : List (ScreenEvent Img)) : TokState :=
  match preprocessPhase preprocess_image batch with
  | none => tok
  | some images => ocrPhase recognize tokenize limit tok images

/-- The while-loop of process_screenshots over successive batches: each
batch is processed in its own try-block, so the loop always continues with
the next batch. -/
def processBatches {Img : Type} (preprocess_image : Img → Option Img)
    (recognize : Img → Option (List String)) (tokenize : String → List String)
    (limit : Nat) (tok : TokState) : List (List (ScreenEvent Img)) → TokState
  | [] => tok
  | b :: bs =>
      processBatches preprocess_image recognize tokenize limit
        (processBatch preprocess_image recognize tokenize limit tok b) bs

/-! ## Voice-activity detection (src/audio_recording/audio_recorder.py)

AudioRecorder._apply_vad (lines 109-131).  Samples are 16-bit signed
integers; the normalized amplitudes are rationals (abs over peak), which
matches the float comparisons exactly on the inputs used below.
frames_per_buffer is the hard-coded 1024 of the constructor, kept as an
argument so the definition states the slice arithmetic explicitly. -/

/-- Python audio[start : start + len] on a list. -/
def pySlice {α : Type} (l : List α) (start len : Nat) : List α :=
  (l.drop start).take len

/-- The for-loop of _apply_vad (lines 122-129), one iteration per
normalized sample: above the threshold, extend the output with the slice
audio[len(out) : len(out) + frames_per_buffer] and reset the silence
counter; below it, count the silence and extend with the same slice while
the counter is within silence_frames. -/
def vadLoop (threshold : ℚ) (silence_frames fpb : Nat) (audio : List Int) :
    List ℚ → List Int → Nat → List Int
  | [], out, _ => out
  | n :: rest, out, silent_count =>
      if threshold < n then
        vadLoop threshold silence_frames fpb audio rest
          (out ++ pySlice audio out.length fpb) 0
      else
        if silent_count + 1 ≤ silence_frames then
          vadLoop threshold silence_frames fpb audio rest
            (out ++ pySlice audio out.length fpb) (silent_count + 1)
        else
          vadLoop threshold silence_frames fpb audio rest out (silent_count + 1)

/-- AudioRecorder._apply_vad (lines 109-131): normalize the absolute
samples by the absolute peak, then run the loop above starting from an
empty output and a zero silence counter. -/
def apply_vad (threshold : ℚ) (silence_frames fpb : Nat) (audio : List Int) :
    List Int :=
  let audio_max : ℚ := ((audio.map Int.natAbs).foldr max 0 : Nat)
  let audio_norm : List ℚ := audio.map (fun a => (a.natAbs : ℚ) / audio_max)
  vadLoop threshold silence_frames fpb audio audio_norm [] 0

/-- The loop of the spec-side retention policy: keep the sample itself
when loud, or when still inside the grace window. -/
def vadSpecLoop (threshold : ℚ) (silence_frames : Nat) (audio_max : ℚ) :
    List Int → Nat → List Int
  | [], _ => []
  | a :: rest, silent_count =>
      if threshold < (a.natAbs : ℚ) / audio_max then
        a :: vadSpecLoop threshold silence_frames audio_max rest 0
      else
        if silent_count + 1 ≤ silence_frames then
          a :: vadSpecLoop threshold silence_frames audio_max rest (silent_count + 1)
        else
          vadSpecLoop threshold silence_frames audio_max rest (silent_count + 1)

/-- Modelled from the spec (section 4.2): the retention policy the spec
describes for voice-activity detection.  A sample is kept while its
normalized value exceeds the threshold; after the signal drops below the
threshold the samples of the grace window (silence_frames further
samples) are still kept; all further below-threshold samples are
dropped. -/
def vad_spec (threshold : ℚ) (silence_frames : Nat) (audio : List Int) :
    List Int :=
  let audio_max : ℚ := ((audio.map Int.natAbs).foldr max 0 : Nat)
  vadSpecLoop threshold silence_frames audio_max audio 0

/-! ## Concrete instances used by witnesses and counterexamples -/

/-- TokenizationUtils.token_limit as set in the constructor (line 29). -/
def default_token_limit : Nat := 2000

/-- A fresh TokenizationUtils state: no open entry, no writes. -/
def tokZero : TokState := ⟨none, 0, []⟩

/-- An application state whose text service holds an open entry that has
not been written. -/
def appOpen : MainApp :=
  ⟨⟨true, true, ⟨"", some "m", 0, ⟨some ⟨0, "T", "Text Capture", "hi", []⟩, 1, []⟩⟩⟩⟩

/-- A recognizer (images are naturals here) that fails on every image but
number 2. -/
def recog0 : Nat → Option (List String) := fun n => if n = 2 then some ["hello"] else none

/-! ## Theorems -/

/-- save_current_phrase is a no-op when the buffer strips to nothing: the
guard at line 103 fails and nothing inside it runs. -/
theorem save_current_phrase_of_ws (tokenize : String → List String) (limit : Nat)
    (st : TCState) (now_iso : String) (md : Metadata) (cs : Bool)
    (h : hasNonWs st.current_phrase = false) :
    save_current_phrase tokenize limit st now_iso md cs = st := by
  unfold save_current_phrase
  rw [h]
  rfl

/-- C1 counterexample: a pipeline state with an open, unwritten Entry on
which process shutdown (handle_signal, stopping the capture service) does
not flush: the Entry is still open afterwards and the write log is still
empty, so the claim that shutdown flushes any still-open Entry before
exit is false of this code. -/
theorem shutdown_leaves_entry_open :
    (handle_signal appOpen).text_capture.state.tok.current_entry
      = some ⟨0, "T", "Text Capture", "hi", []⟩
    ∧ (handle_signal appOpen).text_capture.state.tok.stored = [] := by
  refine ⟨by decide, by decide⟩

/-- C1 (amended): process shutdown stops the capture listeners and nothing
more: the segmentation state — the open Entry and the write log — and the
phrase buffer are untouched, so an Entry open at shutdown remains open and
is never handed to the store. -/
theorem shutdown_no_flush (app : MainApp) :
    (handle_signal app).text_capture.state.tok = app.text_capture.state.tok
    ∧ (handle_signal app).text_capture.state.current_phrase
        = app.text_capture.state.current_phrase
    ∧ (handle_signal app).text_capture.key_listener_running = false
    ∧ (handle_signal app).text_capture.mouse_listener_running = false :=
  ⟨rfl, rfl, rfl, rfl⟩

/-- C2: pressing Enter on a non-empty buffer leaves the state exactly as
it was — reading key.char on the Key.enter enum member raises
AttributeError before the enter branch of on_key_press can run, and the
AttributeError handler treats only space, backspace and tab.  The
newline-append, the context-switch emission and the buffer reset that the
claim (and tests/test_text.py) require never happen. -/
theorem enter_key_is_dead_code :
    on_key_press wsTokenize 2000 ⟨"This is a test", some "2024-01-01_1200", 100, tokZero⟩
        PKey.enter "2024-01-01_1200" "TS" 100 []
      = ⟨"This is a test", some "2024-01-01_1200", 100, tokZero⟩
    ∧ keyChar PKey.enter = none := by
  refine ⟨?_, rfl⟩
  norm_num [on_key_press, inactivityCheck, keyDispatch, minuteRollover, keyChar,
    save_current_phrase, inactivity_threshold, tokZero]

/-- C3: after every submission to the segmentation engine the open
Entry's token count has been recomputed and checked, so an Entry that is
open between submissions has a token count strictly below the ceiling
(first part); and whenever the entry produced by the open/append step
reaches the ceiling, the submission closes it at once and its record is
appended to the write log (second part). -/
theorem token_ceiling_enforced (tokenize : String → List String) (limit : Nat)
    (st : TokState) (text timestamp source : String) (metadata : Metadata)
    (context_switch : Bool) :
    (∀ e, (tokenize_and_store_text tokenize limit st text timestamp source metadata
              context_switch).current_entry = some e →
        (tokenize e.text).length < limit)
    ∧ (∀ e, (mergeEntry tokenize st (preprocess_text text) timestamp source metadata
              context_switch).current_entry = some e →
        limit ≤ (tokenize e.text).length →
        (tokenize_and_store_text tokenize limit st text timestamp source metadata
            context_switch).current_entry = none
        ∧ (tokenize_and_store_text tokenize limit st text timestamp source metadata
            context_switch).stored
          = store_entry tokenize
              (mergeEntry tokenize st (preprocess_text text) timestamp source metadata
                context_switch).stored e) := by
  constructor
  · intro e he
    unfold tokenize_and_store_text limitFlush at he
    split at he
    · next heq => rw [heq] at he; cases he
    · next e0 heq =>
      split at he
      · cases he
      · next hcond =>
        rw [heq] at he
        cases he
        simp only [is_token_limit_reached, decide_eq_true_eq] at hcond
        omega
  · intro e hM hlim
    unfold tokenize_and_store_text limitFlush
    rw [hM]
    have : is_token_limit_reached tokenize limit e.text = true := by
      simp [is_token_limit_reached, hlim]
    simp [this]

/-- Witness for C3 at a concrete input: submitting "hello" to a fresh
engine with the default ceiling leaves an open entry whose token count is
below the ceiling. -/
theorem token_ceiling_enforced_witness :
    (tokenize_and_store_text wsTokenize 2000 tokZero "hello" "t" "Text Capture" [] false).current_entry
      = some ⟨0, "t", "Text Capture", "hello", []⟩
    ∧ (wsTokenize "hello").length < 2000 :=
  ⟨by decide,
   (token_ceiling_enforced wsTokenize 2000 tokZero "hello" "t" "Text Capture" [] false).1
     ⟨0, "t", "Text Capture", "hello", []⟩ (by decide)⟩

/-- C4 counterexample: a batch of two recognizable-or-not events in which
the first event's recognition fails and the second would have produced
"hello".  The batch produces nothing at all — the second event is neither
emitted nor stored — so the claim that per-item fault isolation lets the
batch continue with the remaining events is false of this code. -/
theorem batch_failure_skips_rest :
    recog0 1 = none ∧ recog0 2 = some ["hello"]
    ∧ processBatch (fun i => some i) recog0 wsTokenize 2000 tokZero
        [⟨1, "T1", 1⟩, ⟨2, "T2", 1⟩] = tokZero := by
  refine ⟨by decide, by decide, by decide⟩

/-- C4 (amended): a recognition failure on one event is caught at batch
granularity: that event and every later event of the same batch are
skipped (a preprocessing failure skips the whole batch), nothing is
retried, and the processing loop continues with the next batch. -/
theorem batch_fault_handling {Img : Type} (pp : Img → Option Img)
    (recognize : Img → Option (List String)) (tokenize : String → List String)
    (limit : Nat) (tok : TokState) (pre rest : List (ScreenEvent Img))
    (ev : ScreenEvent Img) (batch : List (ScreenEvent Img))
    (bs : List (List (ScreenEvent Img)))
    (hev : recognize ev.img = none)
    (hpp : preprocessPhase pp batch = none) :
    ocrPhase recognize tokenize limit tok (pre ++ ev :: rest)
      = ocrPhase recognize tokenize limit tok pre
    ∧ processBatch pp recognize tokenize limit tok batch = tok
    ∧ processBatches pp recognize tokenize limit tok (batch :: bs)
        = processBatches pp recognize tokenize limit
            (processBatch pp recognize tokenize limit tok batch) bs := by
  refine ⟨?_, ?_, rfl⟩
  · induction pre generalizing tok with
    | nil =>
      simp only [List.nil_append]
      unfold ocrPhase
      rw [hev]
    | cons e pre ih =>
      simp only [List.cons_append]
      unfold ocrPhase
      cases hre : recognize e.img with
      | none => rfl
      | some w => exact ih _
  · unfold processBatch
    rw [hpp]

/-- Witness for C4 (amended) at concrete inputs: with the failing
recognizer recog0, the events after the failing one contribute nothing,
a batch whose preprocessing fails leaves the state unchanged, and the
loop moves on to the following batches. -/
theorem batch_fault_handling_witness :
    ocrPhase recog0 wsTokenize 2000 tokZero ([] ++ (⟨1, "T1", 1⟩ : ScreenEvent Nat) :: [⟨2, "T2", 1⟩])
      = ocrPhase recog0 wsTokenize 2000 tokZero []
    ∧ processBatch (fun _ => none) recog0 wsTokenize 2000 tokZero [⟨1, "T1", 1⟩]
        = tokZero
    ∧ processBatches (fun _ => none) recog0 wsTokenize 2000 tokZero ([⟨1, "T1", 1⟩] :: [])
        = processBatches (fun _ => none) recog0 wsTokenize 2000
            (processBatch (fun _ => none) recog0 wsTokenize 2000 tokZero [⟨1, "T1", 1⟩]) [] :=
  batch_fault_handling (fun _ => none) recog0 wsTokenize 2000 tokZero [] [⟨2, "T2", 1⟩]
    ⟨1, "T1", 1⟩ [⟨1, "T1", 1⟩] [] (by decide) rfl

/-- C5 counterexample: two distinct entries that share a timestamp are
written to the same record name — the name is keyed by the timestamp
alone, not by id and timestamp, so the claim's uniqueness is false of
this code. -/
theorem entry_filename_collision :
    ((⟨0, "2024", "OCR", "a", []⟩ : Entry) ≠ (⟨1, "2024", "OCR", "b", []⟩ : Entry))
    ∧ entryFilename ⟨0, "2024", "OCR", "a", []⟩ = entryFilename ⟨1, "2024", "OCR", "b", []⟩
    ∧ (store_entry wsTokenize (store_entry wsTokenize [] ⟨0, "2024", "OCR", "a", []⟩)
         ⟨1, "2024", "OCR", "b", []⟩).map StoredFile.filename
      = ["entry_2024.json", "entry_2024.json"] := by
  refine ⟨by decide, by decide, by decide⟩

/-- C5 (amended): the record name the store chooses is keyed by the entry
timestamp alone: two entries land in the same record exactly when their
timestamps are equal, so entries with distinct timestamps get distinct
records, while distinct entries sharing a timestamp collide (the later
write overwrites the earlier one). -/
theorem entry_filename_keyed_by_timestamp (e1 e2 : Entry) :
    entryFilename e1 = entryFilename e2 ↔ e1.timestamp = e2.timestamp := by
  constructor
  · intro h
    unfold entryFilename at h
    have hd := congrArg String.data h
    simp only [String.data_append] at hd
    have h3 := List.append_cancel_left (List.append_cancel_right hd)
    cases he1 : e1.timestamp
    cases he2 : e2.timestamp
    rw [he1, he2] at h3
    exact congrArg String.mk h3
  · intro h
    unfold entryFilename
    rw [h]

/-- C6 counterexample: an OCR input whose recognized text is empty is not
dropped by the engine — it opens an Entry with empty text — and flushing
that empty Entry on the next context switch writes a record for it, so
both halves of the claim are false of this code. -/
theorem empty_text_forms_entry :
    (process_ocr_text wsTokenize 2000 tokZero "" "TS" []).current_entry
      = some ⟨0, "TS", "OCR", "", []⟩
    ∧ (tokenize_and_store_text wsTokenize 2000
         (process_ocr_text wsTokenize 2000 tokZero "" "TS" []) "x" "TS2" "Text Capture" [] true).stored
      = [⟨"entry_TS.json", ⟨0, "TS", "OCR", "", []⟩, []⟩] := by
  refine ⟨by decide, by decide⟩

/-- C6 (amended): only the Text capture source drops empty or
whitespace-only input — save_current_phrase is a no-op on such a buffer —
while the segmentation engine itself opens an Entry even from empty
normalized text, and the store appends a record for every entry handed to
it, whatever its text. -/
theorem empty_guard_only_in_text_capture (tokenize : String → List String) (limit : Nat)
    (st : TCState) (now_iso : String) (md : Metadata) (cs : Bool)
    (st2 : TokState) (ts : String) (md2 : Metadata)
    (hws : hasNonWs st.current_phrase = false)
    (hopen : st2.current_entry = none)
    (hlim : (tokenize "").length < limit) :
    save_current_phrase tokenize limit st now_iso md cs = st
    ∧ (process_ocr_text tokenize limit st2 "" ts md2).current_entry
        = some ⟨st2.next_id, ts, "OCR", "", md2⟩
    ∧ ∀ log e, (store_entry tokenize log e).length = log.length + 1 := by
  refine ⟨?_, ?_, ?_⟩
  · unfold save_current_phrase
    rw [hws]
    rfl
  · unfold process_ocr_text tokenize_and_store_text mergeEntry
    have hp : preprocess_text "" = "" := rfl
    rw [hp, hopen]
    unfold limitFlush
    simp [is_token_limit_reached, Nat.not_le.mpr hlim]
  · intro log e
    unfold store_entry
    simp

/-- Witness for C6 (amended) at concrete inputs: a whitespace-only buffer
is kept untouched by save_current_phrase, while an empty OCR text opens
an entry in a fresh engine. -/
theorem empty_guard_only_in_text_capture_witness :
    save_current_phrase wsTokenize 2000 ⟨" ", none, 0, tokZero⟩ "TS" [] true = ⟨" ", none, 0, tokZero⟩
    ∧ (process_ocr_text wsTokenize 2000 tokZero "" "TS" []).current_entry
        = some ⟨0, "TS", "OCR", "", []⟩
    ∧ ∀ log e, (store_entry wsTokenize log e).length = log.length + 1 :=
  empty_guard_only_in_text_capture wsTokenize 2000 ⟨" ", none, 0, tokZero⟩ "TS" [] true
    tokZero "TS" [] (by decide) (by decide) (by decide)

/-- C7 counterexample: record texts are preprocessed before entering the
entry, so for a first record whose text contains a double space the open
entry's text after the second record is not record1.text + " " +
record2.text. -/
theorem append_preprocesses_counterexample :
    (tokenize_and_store_text wsTokenize 2000
       (tokenize_and_store_text wsTokenize 2000 tokZero "a  b" "t1" "Text Capture" [] false)
       "c" "t2" "Text Capture" [] false).current_entry
      = some ⟨0, "t1", "Text Capture", "a b c", []⟩
    ∧ "a b c" ≠ "a  b" ++ " " ++ "c" := by
  refine ⟨by decide, by decide⟩

/-- C7 (amended): for records whose texts are already whitespace-normal
(fixed points of preprocess_text), two consecutive submissions without a
context switch, starting from no open entry and staying below the token
ceiling, leave one open Entry whose text is record1.text + " " +
record2.text. -/
theorem two_records_append (tokenize : String → List String) (limit : Nat)
    (st0 : TokState) (t1 t2 ts1 ts2 src1 src2 : String) (md1 md2 : Metadata)
    (h0 : st0.current_entry = none)
    (hp1 : preprocess_text t1 = t1) (hp2 : preprocess_text t2 = t2)
    (h1 : (tokenize t1).length < limit)
    (h2 : (tokenize (t1 ++ " " ++ t2)).length < limit) :
    (tokenize_and_store_text tokenize limit
       (tokenize_and_store_text tokenize limit st0 t1 ts1 src1 md1 false)
       t2 ts2 src2 md2 false).current_entry
      = some ⟨st0.next_id, ts1, src1, t1 ++ " " ++ t2, md1⟩ := by
  have hst1 : tokenize_and_store_text tokenize limit st0 t1 ts1 src1 md1 false
      = { st0 with
          current_entry := some ⟨st0.next_id, ts1, src1, t1, md1⟩,
          next_id := st0.next_id + 1 } := by
    unfold tokenize_and_store_text mergeEntry
    rw [hp1, h0]
    unfold limitFlush
    simp [is_token_limit_reached, Nat.not_le.mpr h1]
  rw [hst1]
  unfold tokenize_and_store_text mergeEntry
  rw [hp2]
  unfold limitFlush
  simp [is_token_limit_reached, Nat.not_le.mpr h2]

/-- Witness for C7 (amended) at concrete inputs: "hello" then "world"
merge into one open entry reading "hello world". -/
theorem two_records_append_witness :
    (tokenize_and_store_text wsTokenize 2000
       (tokenize_and_store_text wsTokenize 2000 tokZero "hello" "t1" "Text Capture" [] false)
       "world" "t2" "Text Capture" [] false).current_entry
      = some ⟨0, "t1", "Text Capture", "hello" ++ " " ++ "world", []⟩ :=
  two_records_append wsTokenize 2000 tokZero "hello" "world" "t1" "t2" "Text Capture" "Text Capture"
    [] [] (by decide) (by decide) (by decide) (by decide) (by decide)

/-- C8: on the recording [0, 100] with threshold 1/10 and an empty grace
window, the code's voice-activity filter returns the prefix [0, 100] of
the raw audio — it extends the output with the slice of the original
audio that starts at the output's current length, not with the samples
that crossed the threshold — while the retention policy of the spec keeps
exactly the above-threshold samples, [100].  The code keeps the silent
sample and contradicts its own docstring, which says silent segments are
removed. -/
theorem vad_keeps_prefix_not_loud_samples :
    apply_vad (1/10) 0 1024 [0, 100] = [0, 100]
    ∧ vad_spec (1/10) 0 [0, 100] = [100]
    ∧ apply_vad (1/10) 0 1024 [0, 100] ≠ vad_spec (1/10) 0 [0, 100] := by
  refine ⟨?_, ?_, ?_⟩ <;>
    norm_num [apply_vad, vad_spec, vadLoop, vadSpecLoop, pySlice]

/-- C9: a key press in a new wall-clock minute with a non-blank buffer
first emits the buffer through process_text_capture with context-switch
false — so the engine appends it to the open Entry instead of opening a
new one — clears the buffer and records the new minute; and on_key_press
performs this rollover before dispatching the key itself. -/
theorem minute_rollover_flushes (tokenize : String → List String) (limit : Nat)
    (st : TCState) (now_minute now_iso : String) (md : Metadata) (m : String)
    (hm : st.current_minute = some m) (hne : m ≠ now_minute)
    (hbuf : hasNonWs st.current_phrase = true) :
    minuteRollover tokenize limit st now_minute now_iso md
      = { st with
          tok := process_text_capture tokenize limit st.tok st.current_phrase now_iso md false,
          current_phrase := "",
          current_minute := some now_minute }
    ∧ ∀ key now, on_key_press tokenize limit st key now_minute now_iso now md
        = inactivityCheck tokenize limit
            (keyDispatch tokenize limit (minuteRollover tokenize limit st now_minute now_iso md)
              key now_iso now md)
            now_iso now md := by
  refine ⟨?_, fun key now => rfl⟩
  unfold minuteRollover
  rw [hm]
  simp [hne, save_current_phrase, hbuf]

/-- Witness for C9 at a concrete input: buffer "hi" typed in minute "A",
next key arriving in minute "B". -/
theorem minute_rollover_flushes_witness :
    minuteRollover wsTokenize 2000 ⟨"hi", some "A", 0, tokZero⟩ "B" "TS" []
      = ⟨"", some "B", 0, process_text_capture wsTokenize 2000 tokZero "hi" "TS" [] false⟩ :=
  (minute_rollover_flushes wsTokenize 2000 ⟨"hi", some "A", 0, tokZero⟩ "B" "TS" [] "A"
    rfl (by decide) (by decide)).1

/-- C10: pressing backspace with an empty buffer is total and a no-op on
the buffer — on_key_press leaves it empty through the whole handler — and
in general the backspace branch slices off the last character with
pyDropLast, which maps the empty string to itself. -/
theorem backspace_total_on_empty (tokenize : String → List String) (limit : Nat)
    (st : TCState) (now_minute now_iso : String) (now : ℚ) (md : Metadata)
    (h : st.current_phrase = "") :
    (on_key_press tokenize limit st PKey.backspace now_minute now_iso now md).current_phrase = ""
    ∧ ∀ st2 : TCState, (keyDispatch tokenize limit st2 PKey.backspace now_iso now md).current_phrase
        = pyDropLast st2.current_phrase := by
  refine ⟨?_, fun st2 => rfl⟩
  unfold on_key_press
  have h1 : (minuteRollover tokenize limit st now_minute now_iso md).current_phrase = "" := by
    unfold minuteRollover
    cases hcm : st.current_minute with
    | none => exact h
    | some m =>
      by_cases hmm : m = now_minute
      · simp [hmm, h]
      · rw [save_current_phrase_of_ws tokenize limit st now_iso md false (by rw [h]; rfl)]
        simp [hmm, h]
  have h2 : (keyDispatch tokenize limit (minuteRollover tokenize limit st now_minute now_iso md)
      PKey.backspace now_iso now md).current_phrase = "" := by
    unfold keyDispatch keyChar
    simp only []
    rw [show (minuteRollover tokenize limit st now_minute now_iso md).current_phrase = "" from h1]
    rfl
  set stk := keyDispatch tokenize limit (minuteRollover tokenize limit st now_minute now_iso md)
      PKey.backspace now_iso now md with hstk
  unfold inactivityCheck
  split
  · rw [save_current_phrase_of_ws tokenize limit stk now_iso md true (by rw [h2]; rfl)]
    exact h2
  · exact h2

/-- Witness for C10 at a concrete input: backspace on a fresh capture
state with an empty buffer. -/
theorem backspace_total_on_empty_witness :
    (on_key_press wsTokenize 2000 ⟨"", none, 0, tokZero⟩ PKey.backspace "M" "TS" 0 []).current_phrase = ""
    ∧ ∀ st2 : TCState, (keyDispatch wsTokenize 2000 st2 PKey.backspace "TS" 0 []).current_phrase
        = pyDropLast st2.current_phrase :=
  backspace_total_on_empty wsTokenize 2000 ⟨"", none, 0, tokZero⟩ "M" "TS" 0 [] rfl

end TimeCapsule
